import Mathlib

set_option maxRecDepth 4000

/-!
Shallow embedding of `src/scripts/glue_transform/transform.py` (a PySpark
Glue job): the inline Great-Expectations-style validator, the
pseudonymization UDF, the weather and IoT sensor transforms, and the
per-dataset pipeline skeleton of `main`.

Modelling conventions:
* A JSON record read by `spark.read.json` is an association list from field
  name to an optional scalar; `none` is a JSON null.  The DataFrame schema
  is the union of the field names present in the records; referencing a
  column outside that schema raises `AnalysisException` (Spark analyzes
  eagerly), modelled as `Except.error`.
* Numbers are exact rationals (the job's doubles); none of the verified
  claims exercises a value where binary floating point and exact
  arithmetic disagree.  Casting a string cell to a number is modelled as
  null (the job's numeric columns hold numbers or nulls; theorems that
  compare cells numerically hypothesize numeric cells).
* Spark SQL comparisons with null follow Kleene three-valued logic;
  `filter` keeps a row only when the predicate is definitely true, and a
  `when` branch fires only when its condition is definitely true.
-/

/-- A JSON scalar stored in a cell: a string or a number. -/
inductive Val where
  | str (s : String)
  | num (q : ℚ)
deriving DecidableEq, Repr

/-- One JSON record: field name to value, `none` being a JSON null. -/
abbrev Record := List (String × Option Val)

/-- A DataFrame's rows, as read from newline-delimited JSON. -/
abbrev Dataset := List Record

/-- Whether a record carries the field at all (even as an explicit null). -/
def hasField (r : Record) (c : String) : Bool :=
  (r.find? (fun p => p.1 == c)).isSome

/-- The value of a column in a record: absent fields and explicit nulls
both read back as SQL null. -/
def cell (r : Record) (c : String) : Option Val :=
  match (r.find? (fun p => p.1 == c)).map Prod.snd with
  | some v => v
  | none => none

/-- The inferred schema contains a column iff some record carries the
field (this is how `spark.read.json` unions per-record schemas). -/
def inSchema (ds : Dataset) (c : String) : Bool :=
  ds.any (fun r => hasField r c)

/-- Casting a cell's scalar to a double: numbers pass through; the job's
numeric columns never hold strings, so a string casts to null here. -/
def castToNum : Val → Option ℚ
  | .num q => some q
  | .str _ => none

/-- Numeric reading of a column cell (null when absent, null, or
non-numeric). -/
def cellNum (r : Record) (c : String) : Option ℚ :=
  (cell r c).bind castToNum

/-- Kleene three-valued OR, as Spark SQL evaluates `|` over nullable
booleans. -/
def kOr : Option Bool → Option Bool → Option Bool
  | some true, _ => some true
  | _, some true => some true
  | some false, some false => some false
  | _, _ => none

/-- Kleene three-valued AND, as Spark SQL evaluates `&` over nullable
booleans. -/
def kAnd : Option Bool → Option Bool → Option Bool
  | some false, _ => some false
  | _, some false => some false
  | some true, some true => some true
  | _, _ => none

/-- A row passes a `filter`, and a `when` branch fires, only when the
condition is definitely true. -/
def condTrue (b : Option Bool) : Bool :=
  b == some true

/-- Mirrors the `ExpectationResult` class: expectation type, pass flag,
and the diagnostic-counter dictionary. -/
structure ExpectationResult where
  expectation_type : String
  success : Bool
  details : List (String × Val)
deriving DecidableEq, Repr

/-- The message of the `AnalysisException` Spark raises when a referenced
column cannot be resolved against the DataFrame schema. -/
def analysisError (c : String) : String :=
  "AnalysisException: column " ++ c ++ " cannot be resolved"

/-- `DataValidator.expect_column_values_to_not_be_null`: counts rows where
`F.col(column).isNull()`; resolving a column outside the schema raises. -/
def expect_column_values_to_not_be_null (ds : Dataset) (column : String) :
    Except String ExpectationResult :=
  if inSchema ds column then
    let total := ds.length
    let nulls := (ds.filter (fun r => cell r column == none)).length
    .ok { expectation_type := "expect_column_values_to_not_be_null",
          success := nulls == 0,
          details := [("column", .str column), ("null_count", .num (nulls : ℚ)),
                      ("total_count", .num (total : ℚ))] }
  else .error (analysisError column)

/-- The row predicate of the `between` expectation's filter:
`(F.col(column) < min_value) | (F.col(column) > max_value)` under Kleene
logic, kept when definitely true. -/
def outOfRangeRow (column : String) (min_value max_value : ℚ) (r : Record) : Bool :=
  condTrue (kOr ((cellNum r column).map (fun v => decide (v < min_value)))
              ((cellNum r column).map (fun v => decide (max_value < v))))

/-- `DataValidator.expect_column_values_to_be_between`: counts rows whose
value falls strictly outside `[min_value, max_value]`; null comparisons
are null, so null cells are never kept by the filter. -/
def expect_column_values_to_be_between (ds : Dataset) (column : String)
    (min_value max_value : ℚ) : Except String ExpectationResult :=
  if inSchema ds column then
    let total := ds.length
    let out_of_range := (ds.filter (outOfRangeRow column min_value max_value)).length
    .ok { expectation_type := "expect_column_values_to_be_between",
          success := out_of_range == 0,
          details := [("column", .str column), ("min", .num min_value),
                      ("max", .num max_value),
                      ("out_of_range_count", .num (out_of_range : ℚ)),
                      ("total_count", .num (total : ℚ))] }
  else .error (analysisError column)

/-- `DataValidator.expect_table_row_count_to_be_greater_than`: no column
reference, so it never raises. -/
def expect_table_row_count_to_be_greater_than (ds : Dataset) (value : ℤ) :
    ExpectationResult :=
  let count := ds.length
  { expectation_type := "expect_table_row_count_to_be_greater_than",
    success := decide ((count : ℤ) > value),
    details := [("row_count", .num (count : ℚ)), ("min_expected", .num (value : ℚ))] }

/-- One chained expectation call on the validator. -/
inductive Rule where
  | notNull (column : String)
  | between (column : String) (min_value max_value : ℚ)
  | rowCountGreaterThan (value : ℤ)
deriving DecidableEq, Repr

/-- Evaluate one expectation against the DataFrame. -/
def runRule (ds : Dataset) : Rule → Except String ExpectationResult
  | .notNull c => expect_column_values_to_not_be_null ds c
  | .between c mn mx => expect_column_values_to_be_between ds c mn mx
  | .rowCountGreaterThan v => .ok (expect_table_row_count_to_be_greater_than ds v)

/-- The fluent chain of expectation calls: each appends one result to
`self.results`; an `AnalysisException` propagates out of the chain. -/
def runRules (ds : Dataset) : List Rule → Except String (List ExpectationResult)
  | [] => .ok []
  | rule :: rest => do
      let res ← runRule ds rule
      let more ← runRules ds rest
      .ok (res :: more)

/-- Mirrors the summary dictionary returned by `DataValidator.validate`. -/
structure ValidationReport where
  dataset : String
  expectations_evaluated : ℕ
  expectations_passed : ℕ
  expectations_failed : ℕ
  success : Bool
  results : List ExpectationResult
deriving DecidableEq, Repr

/-- `DataValidator.validate`: counts passes over the accumulated results,
derives `failed` as the remainder and `success` as `failed == 0`. -/
def validate (dataset_name : String) (results : List ExpectationResult) :
    ValidationReport :=
  let passed := (results.filter (fun r => r.success)).length
  let failed := results.length - passed
  { dataset := dataset_name,
    expectations_evaluated := results.length,
    expectations_passed := passed,
    expectations_failed := failed,
    success := failed == 0,
    results := results }

/-- Build a validator on a DataFrame, chain a rule list, and call
`validate()`. -/
def buildReport (ds : Dataset) (dataset_name : String) (rules : List Rule) :
    Except String ValidationReport :=
  (runRules ds rules).map (validate dataset_name)

/-- The fixed expectation chain of `transform_weather`. -/
def weather_rules : List Rule :=
  [.notNull "city", .notNull "timestamp", .notNull "temperature_c",
   .between "temperature_c" (-90) 60, .between "humidity_pct" 0 100,
   .rowCountGreaterThan 0]

/-- The fixed expectation chain of `transform_iot_sensors`. -/
def iot_rules : List Rule :=
  [.notNull "sensor_id", .notNull "city", .notNull "timestamp",
   .notNull "temperature_c", .between "temperature_c" (-50) 60,
   .between "humidity_pct" 0 100, .between "aqi" 0 500,
   .between "battery_level" 0 100, .rowCountGreaterThan 0]

/-- The weather validation step. -/
def validate_weather (ds : Dataset) : Except String ValidationReport :=
  buildReport ds "raw_weather" weather_rules

/-- The IoT sensor validation step. -/
def validate_iot (ds : Dataset) : Except String ValidationReport :=
  buildReport ds "raw_iot_sensors" iot_rules

/-- Reduction of a natural number to a 32-bit word. -/
def w32 (n : ℕ) : ℕ := n % 4294967296

/-- 32-bit wrapping addition. -/
def add32 (a b : ℕ) : ℕ := (a + b) % 4294967296

/-- Right rotation of a 32-bit word by `n` places. -/
def rotr32 (n x : ℕ) : ℕ := w32 ((x >>> n) ||| (x <<< (32 - n)))

/-- Bitwise complement of a 32-bit word. -/
def not32 (x : ℕ) : ℕ := 4294967295 ^^^ x

/-- SHA-256 `Ch(x,y,z)`. -/
def shaCh (x y z : ℕ) : ℕ := (x &&& y) ^^^ (not32 x &&& z)

/-- SHA-256 `Maj(x,y,z)`. -/
def shaMaj (x y z : ℕ) : ℕ := (x &&& y) ^^^ (x &&& z) ^^^ (y &&& z)

/-- SHA-256 `Σ₀`. -/
def bigSigma0 (x : ℕ) : ℕ := rotr32 2 x ^^^ rotr32 13 x ^^^ rotr32 22 x

/-- SHA-256 `Σ₁`. -/
def bigSigma1 (x : ℕ) : ℕ := rotr32 6 x ^^^ rotr32 11 x ^^^ rotr32 25 x

/-- SHA-256 `σ₀`. -/
def smallSigma0 (x : ℕ) : ℕ := rotr32 7 x ^^^ rotr32 18 x ^^^ (x >>> 3)

/-- SHA-256 `σ₁`. -/
def smallSigma1 (x : ℕ) : ℕ := rotr32 17 x ^^^ rotr32 19 x ^^^ (x >>> 10)

/-- The eight SHA-256 initial hash values (FIPS 180-4). -/
def shaH0 : List ℕ :=
  [1779033703, 3144134277, 1013904242, 2773480762,
   1359893119, 2600822924, 528734635, 1541459225]

/-- The 64 SHA-256 round constants (FIPS 180-4). -/
def shaK : List ℕ :=
  [1116352408, 1899447441, 3049323471, 3921009573,
   961987163, 1508970993, 2453635748, 2870763221,
   3624381080, 310598401, 607225278, 1426881987,
   1925078388, 2162078206, 2614888103, 3248222580,
   3835390401, 4022224774, 264347078, 604807628,
   770255983, 1249150122, 1555081692, 1996064986,
   2554220882, 2821834349, 2952996808, 3210313671,
   3336571891, 3584528711, 113926993, 338241895,
   666307205, 773529912, 1294757372, 1396182291,
   1695183700, 1986661051, 2177026350, 2456956037,
   2730485921, 2820302411, 3259730800, 3345764771,
   3516065817, 3600352804, 4094571909, 275423344,
   430227734, 506948616, 659060556, 883997877,
   958139571, 1322822218, 1537002063, 1747873779,
   1955562222, 2024104815, 2227730452, 2361852424,
   2428436474, 2756734187, 3204031479, 3329325298]

/-- Big-endian serialization of a natural number to `k` bytes. -/
def beBytes : ℕ → ℕ → List ℕ
  | 0, _ => []
  | k + 1, n => beBytes k (n >>> 8) ++ [n &&& 255]

/-- SHA-256 padding: `0x80`, zero bytes, then the 64-bit big-endian bit
length, bringing the length to a multiple of 64 bytes. -/
def padMessage (msg : List ℕ) : List ℕ :=
  let len := msg.length
  let zeros := (55 + 64 - len % 64) % 64
  msg ++ [0x80] ++ List.replicate zeros 0 ++ beBytes 8 (8 * len)

/-- Big-endian 32-bit words from a byte list. -/
def wordsOf : List ℕ → List ℕ
  | b0 :: b1 :: b2 :: b3 :: rest =>
      ((((b0 <<< 8) ||| b1) <<< 8 ||| b2) <<< 8 ||| b3) :: wordsOf rest
  | _ => []

/-- Extend the 16-word block schedule by `fuel` further words. -/
def extendSchedule (fuel : ℕ) (w : List ℕ) : List ℕ :=
  match fuel with
  | 0 => w
  | f + 1 =>
      let n := w.length
      let wt := add32 (add32 (smallSigma1 (w.getD (n - 2) 0)) (w.getD (n - 7) 0))
                      (add32 (smallSigma0 (w.getD (n - 15) 0)) (w.getD (n - 16) 0))
      extendSchedule f (w ++ [wt])

/-- The 64 compression rounds, driven by the round-constant and schedule
lists; the state is the eight working variables `a..h`. -/
def compressRounds : List ℕ → List ℕ → List ℕ → List ℕ
  | kt :: ks, wt :: ws, st =>
      let a := st.getD 0 0
      let b := st.getD 1 0
      let c := st.getD 2 0
      let d := st.getD 3 0
      let e := st.getD 4 0
      let f := st.getD 5 0
      let g := st.getD 6 0
      let h := st.getD 7 0
      let t1 := add32 h (add32 (bigSigma1 e) (add32 (shaCh e f g) (add32 kt wt)))
      let t2 := add32 (bigSigma0 a) (shaMaj a b c)
      compressRounds ks ws [add32 t1 t2, a, b, c, add32 d t1, e, f, g]
  | _, _, st => st

/-- Process one 64-byte chunk into the running hash state. -/
def processChunk (st chunk : List ℕ) : List ℕ :=
  let w := extendSchedule 48 (wordsOf chunk)
  List.zipWith add32 st (compressRounds shaK w st)

/-- Fold the padded message's chunks into the hash state; `fuel` is the
chunk count. -/
def processChunks : ℕ → List ℕ → List ℕ → List ℕ
  | 0, _, st => st
  | f + 1, bytes, st => processChunks f (bytes.drop 64) (processChunk st (bytes.take 64))

/-- SHA-256 digest (32 bytes) of a byte list. -/
def sha256 (msg : List ℕ) : List ℕ :=
  let padded := padMessage msg
  ((processChunks (padded.length / 64) padded shaH0).map (beBytes 4)).flatten

/-- UTF-8 bytes of one character. -/
def utf8Char (c : Char) : List ℕ :=
  let n := c.toNat
  if n < 0x80 then [n]
  else if n < 0x800 then
    [0xC0 ||| (n >>> 6), 0x80 ||| (n &&& 0x3F)]
  else if n < 0x10000 then
    [0xE0 ||| (n >>> 12), 0x80 ||| ((n >>> 6) &&& 0x3F), 0x80 ||| (n &&& 0x3F)]
  else
    [0xF0 ||| (n >>> 18), 0x80 ||| ((n >>> 12) &&& 0x3F),
     0x80 ||| ((n >>> 6) &&& 0x3F), 0x80 ||| (n &&& 0x3F)]

/-- UTF-8 encoding of a string, as `value.encode("utf-8")` produces it. -/
def utf8Encode (s : String) : List ℕ :=
  (s.data.map utf8Char).flatten

/-- Lowercase hexadecimal digit. -/
def hexDigit (n : ℕ) : Char :=
  if n < 10 then Char.ofNat (48 + n) else Char.ofNat (87 + n)

/-- Two lowercase hex digits of one byte. -/
def byteHex (b : ℕ) : List Char :=
  [hexDigit (b / 16), hexDigit (b % 16)]

/-- Lowercase hexadecimal string of a byte list, as `hexdigest()` emits. -/
def hexOfBytes (bs : List ℕ) : String :=
  ⟨(bs.map byteHex).flatten⟩

/-- `pseudonymize_column`: `None` passes through; otherwise the lowercase
hex digest of the SHA-256 hash of the UTF-8 encoding of the value. -/
def pseudonymize_column : Option String → Option String
  | none => none
  | some value => some (hexOfBytes (sha256 (utf8Encode value)))

/-- The registered Spark UDF applied to one cell: declared to return
`StringType`; a null cell maps to null; a numeric cell would make
`value.encode("utf-8")` raise inside the executor. -/
def pseudonymize_udf_cell : Option Val → Except String (Option Val)
  | none => .ok ((pseudonymize_column none).map Val.str)
  | some (.str s) => .ok ((pseudonymize_column (some s)).map Val.str)
  | some (.num _) => .error "AttributeError: value has no attribute encode"

/-- Spark's `F.round(col, 2)`: HALF_UP rounding to two decimal places
(ties round away from zero). -/
def round2 (q : ℚ) : ℚ :=
  if 0 ≤ q then ((⌊q * 100 + 1 / 2⌋ : ℤ) : ℚ) / 100
  else -(((⌊-q * 100 + 1 / 2⌋ : ℤ) : ℚ) / 100)

/-- `withColumn`: replace the column if the record carries it, else append
it; every row of the result carries the field. -/
def setCol (r : Record) (c : String) (v : Option Val) : Record :=
  (r.filter (fun p => !(p.1 == c))) ++ [(c, v)]

/-- `drop`: remove the column from the row. -/
def dropCol (r : Record) (c : String) : Record :=
  r.filter (fun p => !(p.1 == c))

/-- The `temperature_f` expression of `transform_weather`:
`F.round((F.col("temperature_c") * 9 / 5) + 32, 2)`; null in, null out. -/
def weatherTempF (r : Record) : Option Val :=
  (cellNum r "temperature_c").map (fun tc => .num (round2 (tc * 9 / 5 + 32)))

/-- Casting a scalar to a string; the `timestamp` cells this is applied to
are strings already, so the numeric branch is never exercised. -/
def castToStr : Val → String
  | .str s => s
  | .num q => toString q

/-- The `date` expression of both transforms:
`F.substring(F.col("timestamp"), 1, 10)`; null in, null out. -/
def dateCell (r : Record) : Option Val :=
  (cell r "timestamp").map (fun v => .str ((castToStr v).take 10))

/-- The per-record effect of the two `withColumn` calls of
`transform_weather`. -/
def weather_record (r : Record) : Record :=
  let r1 := setCol r "temperature_f" (weatherTempF r)
  setCol r1 "date" (dateCell r1)

/-- The transform stage of `transform_weather`: each `withColumn` resolves
its column references eagerly, raising for a column outside the schema. -/
def weather_transform (ds : Dataset) : Except String Dataset :=
  if inSchema ds "temperature_c" then
    let ds1 := ds.map (fun r => setCol r "temperature_f" (weatherTempF r))
    if inSchema ds1 "timestamp" then
      .ok (ds1.map (fun r => setCol r "date" (dateCell r)))
    else .error (analysisError "timestamp")
  else .error (analysisError "temperature_c")

/-- Nullable comparison `F.col(c) >= n`. -/
def colGeNum (r : Record) (c : String) (n : ℚ) : Option Bool :=
  (cellNum r c).map (fun v => decide (n ≤ v))

/-- `F.col(c).isNotNull()`: a definite (never null) boolean. -/
def colIsNotNull (r : Record) (c : String) : Option Bool :=
  some (cell r c).isSome

/-- The `quality_score` expression of `transform_iot_sensors`: the
`F.when(...).when(...).otherwise("FAIL")` cascade, a branch firing only
when its condition is definitely true. -/
def quality_score_cell (r : Record) : Option Val :=
  if condTrue (kAnd (kAnd (kAnd (colGeNum r "battery_level" 50)
                              (colIsNotNull r "temperature_c"))
                        (colIsNotNull r "humidity_pct"))
                  (colIsNotNull r "aqi")) then some (.str "PASS")
  else if condTrue (colGeNum r "battery_level" 20) then some (.str "WARN")
  else some (.str "FAIL")

/-- Row-wise execution of a fallible per-record step: the first failing
record aborts the job, as a raising UDF does. -/
def mapExcept (f : Record → Except String Record) : Dataset → Except String Dataset
  | [] => .ok []
  | r :: rest => do
      let r2 ← f r
      let rest2 ← mapExcept f rest
      .ok (r2 :: rest2)

/-- The per-record effect of the `transform_iot_sensors` column steps, in
source order: add `sensor_id_hash` via the UDF (which can only fail on a
non-string, non-null `sensor_id` at execution time), drop `sensor_id`,
add `quality_score`, add `date`. -/
def iot_record (r : Record) : Except String Record := do
  let h ← pseudonymize_udf_cell (cell r "sensor_id")
  let r1 := dropCol (setCol r "sensor_id_hash" h) "sensor_id"
  let r2 := setCol r1 "quality_score" (quality_score_cell r1)
  .ok (setCol r2 "date" (dateCell r2))

/-- The transform stage of `transform_iot_sensors`: column references of
every `withColumn` are resolved at plan-building time (any column outside
the schema raises `AnalysisException` before the UDF ever runs); the UDF
body runs per record when the plan executes. -/
def iot_transform (ds : Dataset) : Except String Dataset :=
  if !(inSchema ds "sensor_id") then .error (analysisError "sensor_id")
  else if !(inSchema ds "battery_level") then .error (analysisError "battery_level")
  else if !(inSchema ds "temperature_c") then .error (analysisError "temperature_c")
  else if !(inSchema ds "humidity_pct") then .error (analysisError "humidity_pct")
  else if !(inSchema ds "aqi") then .error (analysisError "aqi")
  else if !(inSchema ds "timestamp") then .error (analysisError "timestamp")
  else mapExcept iot_record ds

/-- What a run of one dataset variant leaves behind: a skip on empty
input, a locally-absorbed read failure, or a curated write. -/
inductive StageOutcome where
  | emptySkip
  | readError
  | wrote (curated : Dataset)
deriving DecidableEq, Repr

/-- The log lines `transform_weather` emits about its validation report:
the report is serialized, and a failure adds an error line — the report's
only downstream use. -/
def weather_validation_logs (validation_result : ValidationReport) : List String :=
  ["Weather validation: failed=" ++ toString validation_result.expectations_failed]
  ++ (if validation_result.success then []
      else ["Weather data validation FAILED. Check validation details."])

/-- Everything `transform_weather` does after `validator.validate()`
returns: log the report, then transform and write regardless of its
outcome. -/
def weather_post_validation (raw : Dataset) (validation_result : ValidationReport) :
    Except String (List String × Dataset) := do
  let curated ← weather_transform raw
  .ok (weather_validation_logs validation_result
        ++ ["Weather transform complete"], curated)

/-- `transform_weather`: a read failure is caught and absorbed; an empty
frame warns and skips; otherwise validate, log, transform, write. -/
def transform_weather (readResult : Except String Dataset) :
    Except String (List String × StageOutcome) :=
  match readResult with
  | .error e => .ok (["Failed to read raw weather data: " ++ e], .readError)
  | .ok raw =>
      if raw.isEmpty then .ok (["No raw weather data found"], .emptySkip)
      else do
        let validation_result ← validate_weather raw
        let (logs, curated) ← weather_post_validation raw validation_result
        .ok (logs, .wrote curated)

/-- The log lines `transform_iot_sensors` emits about its validation
report — its only downstream use. -/
def iot_validation_logs (validation_result : ValidationReport) : List String :=
  ["IoT sensor validation: failed=" ++ toString validation_result.expectations_failed]
  ++ (if validation_result.success then []
      else ["IoT sensor data validation FAILED. Check validation details."])

/-- Everything `transform_iot_sensors` does after `validator.validate()`
returns: log the report, then transform and write regardless of its
outcome. -/
def iot_post_validation (raw : Dataset) (validation_result : ValidationReport) :
    Except String (List String × Dataset) := do
  let curated ← iot_transform raw
  .ok (iot_validation_logs validation_result
        ++ ["IoT sensor transform complete"], curated)

/-- `transform_iot_sensors`: same skeleton as the weather variant. -/
def transform_iot_sensors (readResult : Except String Dataset) :
    Except String (List String × StageOutcome) :=
  match readResult with
  | .error e => .ok (["Failed to read raw IoT sensor data: " ++ e], .readError)
  | .ok raw =>
      if raw.isEmpty then .ok (["No raw IoT sensor data found"], .emptySkip)
      else do
        let validation_result ← validate_iot raw
        let (logs, curated) ← iot_post_validation raw validation_result
        .ok (logs, .wrote curated)

/-- The body of `main` after setup: run the weather variant, then the IoT
variant; each variant's read result is its own input. An exception
escaping either variant aborts the job. -/
def main_run (weatherRead iotRead : Except String Dataset) :
    Except String ((List String × StageOutcome) × (List String × StageOutcome)) := do
  let w ← transform_weather weatherRead
  let i ← transform_iot_sensors iotRead
  .ok (w, i)

def austin : Record :=
  [("city", some (.str "Austin")),
   ("timestamp", some (.str "2024-01-01T00:00:00Z")),
   ("temperature_c", some (.num 20)),
   ("humidity_pct", some (.num 50))]

def austinWeatherReport : ValidationReport :=
  (validate_weather [austin]).toOption.getD (validate "raw_weather" [])

def missingColumnDs : Dataset := [[("battery_level", some (.num 50))]]

def presentColumnDs : Dataset := [[("temperature_c", some (.num 61))]]

def sensorHot : Record :=
  [("sensor_id", some (.str "s1")), ("city", some (.str "X")),
   ("timestamp", some (.str "2024-01-02T03:04:05")),
   ("temperature_c", some (.num 61)), ("humidity_pct", some (.num 40)),
   ("aqi", some (.num 10)), ("battery_level", some (.num 80))]

def sensorPass : Record :=
  [("battery_level", some (.num 60)), ("temperature_c", some (.num 1)),
   ("humidity_pct", some (.num 1)), ("aqi", some (.num 1))]

def sensorNullBattery : Record :=
  [("battery_level", none), ("temperature_c", some (.num 1)),
   ("humidity_pct", some (.num 1)), ("aqi", some (.num 1))]

/-- The record `iot_record` produces once the UDF returned `hv` for the
row's `sensor_id`. -/
def iot_record_fn (r : Record) (hv : Option Val) : Record :=
  let r1 := dropCol (setCol r "sensor_id_hash" hv) "sensor_id"
  let r2 := setCol r1 "quality_score" (quality_score_cell r1)
  setCol r2 "date" (dateCell r2)

def noCityDs : Dataset := [[("foo", some (.num 1))]]

theorem condTrue_kAnd : ∀ a b : Option Bool, condTrue (kAnd a b) = (condTrue a && condTrue b) := by
  decide

theorem condTrue_kOr : ∀ a b : Option Bool, condTrue (kOr a b) = (condTrue a || condTrue b) := by
  decide

theorem find?_filterNe_self (r : Record) (c : String) :
    (r.filter (fun p => !(p.1 == c))).find? (fun p => p.1 == c) = none := by
  induction r with
  | nil => rfl
  | cons p t ih =>
      by_cases h1 : p.1 = c <;>
        simp [List.filter_cons, h1, List.find?_cons, ih]

theorem find?_filterNe (r : Record) (c c2 : String) (h : c2 ≠ c) :
    (r.filter (fun p => !(p.1 == c))).find? (fun p => p.1 == c2)
      = r.find? (fun p => p.1 == c2) := by
  have hcc : (c == c2) = false := by
    simp
    exact fun hc => h hc.symm
  induction r with
  | nil => rfl
  | cons p t ih =>
      by_cases h1 : p.1 = c
      · simp [List.filter_cons, h1, List.find?_cons, hcc, ih]
      · by_cases h2 : p.1 = c2 <;>
          simp [List.filter_cons, h1, List.find?_cons, h2, h, ih]

theorem cell_setCol_self (r : Record) (c : String) (v : Option Val) :
    cell (setCol r c v) c = v := by
  unfold cell setCol
  rw [List.find?_append, find?_filterNe_self]
  simp [List.find?_cons]

theorem cell_setCol_ne (r : Record) (c c2 : String) (v : Option Val) (h : c2 ≠ c) :
    cell (setCol r c v) c2 = cell r c2 := by
  have hcc : (c == c2) = false := by
    simp
    exact fun hc => h hc.symm
  unfold cell setCol
  rw [List.find?_append, find?_filterNe r c c2 h]
  simp [List.find?_cons, hcc]

theorem hasField_setCol_self (r : Record) (c : String) (v : Option Val) :
    hasField (setCol r c v) c = true := by
  unfold hasField setCol
  rw [List.find?_append, find?_filterNe_self]
  simp [List.find?_cons]

theorem hasField_setCol_ne (r : Record) (c c2 : String) (v : Option Val) (h : c2 ≠ c) :
    hasField (setCol r c v) c2 = hasField r c2 := by
  have hcc : (c == c2) = false := by
    simp
    exact fun hc => h hc.symm
  unfold hasField setCol
  rw [List.find?_append, find?_filterNe r c c2 h]
  cases r.find? (fun p => p.1 == c2) <;> simp [Option.or, List.find?_cons, hcc]

theorem cell_dropCol_self (r : Record) (c : String) :
    cell (dropCol r c) c = none := by
  unfold cell dropCol
  rw [find?_filterNe_self]
  rfl

theorem cell_dropCol_ne (r : Record) (c c2 : String) (h : c2 ≠ c) :
    cell (dropCol r c) c2 = cell r c2 := by
  unfold cell dropCol
  rw [find?_filterNe r c c2 h]

theorem hasField_dropCol_self (r : Record) (c : String) :
    hasField (dropCol r c) c = false := by
  unfold hasField dropCol
  rw [find?_filterNe_self]
  rfl

theorem hasField_dropCol_ne (r : Record) (c c2 : String) (h : c2 ≠ c) :
    hasField (dropCol r c) c2 = hasField r c2 := by
  unfold hasField dropCol
  rw [find?_filterNe r c c2 h]

theorem hasField_of_cell_some (r : Record) (c : String) (v : Val)
    (h : cell r c = some v) : hasField r c = true := by
  unfold cell at h
  unfold hasField
  cases hf : r.find? (fun p => p.1 == c) <;> simp [hf] at h ⊢

theorem inSchema_of_mem (ds : Dataset) (r : Record) (c : String)
    (hmem : r ∈ ds) (h : hasField r c = true) : inSchema ds c = true := by
  unfold inSchema
  exact List.any_eq_true.mpr ⟨r, hmem, h⟩

/-- C2: for every dataset and every sequence of expectation rules chained
onto the builder, the report returned by `validate()` satisfies
`expectations_passed + expectations_failed = expectations_evaluated`, and its
`success` flag equals `expectations_failed == 0` — it is derived from the
counts by construction, never set independently. -/
theorem claim_C2_report_counts (ds : Dataset) (name : String) (rules : List Rule)
    (rep : ValidationReport) (h : buildReport ds name rules = .ok rep) :
    rep.expectations_passed + rep.expectations_failed = rep.expectations_evaluated
      ∧ rep.success = (rep.expectations_failed == 0) := by
  unfold buildReport at h
  cases hr : runRules ds rules with
  | error e => rw [hr] at h; cases h
  | ok results =>
      rw [hr] at h
      simp [Except.map] at h
      subst h
      refine ⟨?_, rfl⟩
      simp [validate]
      exact Nat.add_sub_cancel' (List.length_filter_le _ _)

/-- Witness for C2: the invariant instantiated on the weather rule chain
run over a concrete one-record dataset. -/
theorem claim_C2_witness :
    austinWeatherReport.expectations_passed + austinWeatherReport.expectations_failed
        = austinWeatherReport.expectations_evaluated
      ∧ austinWeatherReport.success = (austinWeatherReport.expectations_failed == 0) :=
  claim_C2_report_counts [austin] "raw_weather" weather_rules austinWeatherReport rfl

/-- C10: `validate()` on a builder to which no expectation was ever added
returns a report with 0 evaluated, 0 passed, 0 failed, and overall
`success = true` — an empty rule set vacuously passes. -/
theorem claim_C10_no_rules (ds : Dataset) (name : String) :
    ∃ rep, buildReport ds name [] = .ok rep
      ∧ rep.expectations_evaluated = 0 ∧ rep.expectations_passed = 0
      ∧ rep.expectations_failed = 0 ∧ rep.success = true :=
  ⟨validate name [], rfl, rfl, rfl, rfl, rfl⟩

/-- C3: `pseudonymize_column` maps null to null unchanged and any string
to the lowercase hexadecimal digest of the SHA-256 hash of its UTF-8
encoding; being a pure function with no salt parameter, repeated
invocations agree.  The concrete conjunct checks the embedded SHA-256
against the published test vector for "abc". -/
theorem claim_C3_pseudonymize :
    pseudonymize_column none = none
      ∧ (∀ s, pseudonymize_column (some s)
            = some (hexOfBytes (sha256 (utf8Encode s))))
      ∧ (∀ s, pseudonymize_column (some s) = pseudonymize_column (some s))
      ∧ pseudonymize_column (some "abc")
          = some "ba7816bf8f01cfea414140de5dae2223b00361a396177a9cb410ff61f20015ad" :=
  ⟨rfl, fun _ => rfl, fun _ => rfl, by decide⟩

/-- C6 counterexample: on a dataset whose schema lacks the target column,
`expect_column_values_to_not_be_null` raises an `AnalysisException`
(Spark cannot resolve the column reference) instead of returning a
failing `ExpectationResult`, refuting the claimed missing-column
totality at a concrete input. -/
theorem claim_C6_counterexample :
    expect_column_values_to_not_be_null missingColumnDs "city"
        = .error (analysisError "city")
      ∧ ¬ ∃ res, expect_column_values_to_not_be_null missingColumnDs "city" = .ok res := by
  have h : expect_column_values_to_not_be_null missingColumnDs "city"
      = .error (analysisError "city") := by rfl
  refine ⟨h, ?_⟩
  rintro ⟨res, hres⟩
  rw [h] at hres
  cases hres

/-- C6 amended: a rule referencing a column absent from the dataset
schema raises the unresolved-column error (for `not_null` and `between`);
when the column is in the schema the rules are total and return a result,
and `row_count_greater_than` never raises. -/
theorem claim_C6_amended (ds : Dataset) (c : String) (mn mx : ℚ) (v : ℤ) :
    (inSchema ds c = false →
        expect_column_values_to_not_be_null ds c = .error (analysisError c)
          ∧ expect_column_values_to_be_between ds c mn mx = .error (analysisError c))
      ∧ (inSchema ds c = true →
          (∃ res, expect_column_values_to_not_be_null ds c = .ok res)
            ∧ ∃ res, expect_column_values_to_be_between ds c mn mx = .ok res)
      ∧ ∃ res, runRule ds (.rowCountGreaterThan v) = .ok res := by
  refine ⟨fun h => ⟨?_, ?_⟩, fun h => ⟨?_, ?_⟩, ⟨_, rfl⟩⟩
  · simp [expect_column_values_to_not_be_null, h]
  · simp [expect_column_values_to_be_between, h]
  · unfold expect_column_values_to_not_be_null
    rw [if_pos h]
    exact ⟨_, rfl⟩
  · unfold expect_column_values_to_be_between
    rw [if_pos h]
    exact ⟨_, rfl⟩

/-- Witness for the amended C6 at concrete datasets: a present column
yields a result, a missing one yields the resolution error. -/
theorem claim_C6_amended_witness :
    (∃ res, expect_column_values_to_not_be_null presentColumnDs "temperature_c" = .ok res)
      ∧ expect_column_values_to_not_be_null presentColumnDs "city"
          = .error (analysisError "city") :=
  ⟨((claim_C6_amended presentColumnDs "temperature_c" 0 1 0).2.1 (by decide)).1,
   ((claim_C6_amended presentColumnDs "city" 0 1 0).1 (by decide)).1⟩

theorem cellNum_eq_some (r : Record) (c : String) (q : ℚ) :
    cellNum r c = some q ↔ cell r c = some (.num q) := by
  cases hc : cell r c with
  | none => simp [cellNum, hc]
  | some v => cases v <;> simp [cellNum, hc, castToNum]

theorem outOfRangeRow_iff (column : String) (mn mx : ℚ) (r : Record) :
    outOfRangeRow column mn mx r = true
      ↔ ∃ q, cellNum r column = some q ∧ (q < mn ∨ mx < q) := by
  unfold outOfRangeRow
  rw [condTrue_kOr]
  cases hc : cellNum r column <;> simp [condTrue, hc]

/-- C5: for a dataset whose schema has the column (and whose cells in it
are numbers or nulls), `between(column, min, max)` returns a result whose
`success` is false iff some record holds a non-null value strictly
outside `[min, max]`; null cells are never counted as out of range; the
details carry `out_of_range_count` (the number of offending records) and
`total_count`. -/
theorem claim_C5_between (ds : Dataset) (column : String) (mn mx : ℚ)
    (hs : inSchema ds column = true)
    (__hnum : ∀ r ∈ ds, cell r column = none ∨ ∃ q, cell r column = some (.num q)) :
    ∃ res, expect_column_values_to_be_between ds column mn mx = .ok res
      ∧ (res.success = false
          ↔ ∃ r ∈ ds, ∃ q, cell r column = some (.num q) ∧ (q < mn ∨ mx < q))
      ∧ res.details.lookup "out_of_range_count"
          = some (.num ((ds.filter (outOfRangeRow column mn mx)).length : ℚ))
      ∧ res.details.lookup "total_count" = some (.num (ds.length : ℚ))
      ∧ (∀ r, outOfRangeRow column mn mx r = true
            ↔ ∃ q, cell r column = some (.num q) ∧ (q < mn ∨ mx < q))
      ∧ (∀ r, cell r column = none → outOfRangeRow column mn mx r = false) := by
  unfold expect_column_values_to_be_between
  rw [if_pos hs]
  refine ⟨_, rfl, ?_, by simp [List.lookup], by simp [List.lookup], ?_, ?_⟩
  · simp only [beq_eq_false_iff_ne, ne_eq]
    rw [List.length_eq_zero]
    constructor
    · intro h
      have hne : ds.filter (outOfRangeRow column mn mx) ≠ [] := by
        intro hnil
        exact h (by rw [hnil])
      rcases List.exists_mem_of_ne_nil _ hne with ⟨r, hr⟩
      have hmem := List.mem_filter.mp hr
      rcases (outOfRangeRow_iff column mn mx r).mp hmem.2 with ⟨q, hq, hout⟩
      exact ⟨r, hmem.1, q, (cellNum_eq_some r column q).mp hq, hout⟩
    · rintro ⟨r, hmem, q, hq, hout⟩ hlen
      have : outOfRangeRow column mn mx r = true :=
        (outOfRangeRow_iff column mn mx r).mpr ⟨q, (cellNum_eq_some r column q).mpr hq, hout⟩
      have : r ∈ ds.filter (outOfRangeRow column mn mx) :=
        List.mem_filter.mpr ⟨hmem, this⟩
      rw [hlen] at this
      cases this
  · intro r
    rw [outOfRangeRow_iff]
    constructor
    · rintro ⟨q, hq, hout⟩
      exact ⟨q, (cellNum_eq_some r column q).mp hq, hout⟩
    · rintro ⟨q, hq, hout⟩
      exact ⟨q, (cellNum_eq_some r column q).mpr hq, hout⟩
  · intro r hr
    cases ho : outOfRangeRow column mn mx r
    · rfl
    · rcases (outOfRangeRow_iff column mn mx r).mp ho with ⟨q, hq, _⟩
      rw [cellNum_eq_some] at hq
      rw [hr] at hq
      cases hq

/-- Witness for C5: `between("temperature_c", -90, 60)` over a dataset
holding a record with `temperature_c = 61`. -/
theorem claim_C5_between_witness :
    ∃ res, expect_column_values_to_be_between [sensorHot] "temperature_c" (-90) 60
        = .ok res
      ∧ (res.success = false
          ↔ ∃ r ∈ [sensorHot], ∃ q,
              cell r "temperature_c" = some (.num q) ∧ (q < -90 ∨ 60 < q))
      ∧ res.details.lookup "out_of_range_count"
          = some (.num (([sensorHot].filter (outOfRangeRow "temperature_c" (-90) 60)).length : ℚ))
      ∧ res.details.lookup "total_count" = some (.num (([sensorHot] : Dataset).length : ℚ))
      ∧ (∀ r, outOfRangeRow "temperature_c" (-90) 60 r = true
            ↔ ∃ q, cell r "temperature_c" = some (.num q) ∧ (q < -90 ∨ 60 < q))
      ∧ (∀ r, cell r "temperature_c" = none
            → outOfRangeRow "temperature_c" (-90) 60 r = false) :=
  claim_C5_between [sensorHot] "temperature_c" (-90) 60 (by decide)
    (by
      intro r hr
      simp only [List.mem_singleton] at hr
      subst hr
      exact Or.inr ⟨61, rfl⟩)

theorem condTrue_some (b : Bool) : condTrue (some b) = b := by
  cases b <;> rfl

theorem condTrue_none : condTrue none = false := rfl

theorem quality_score_cell_char (r : Record) :
    quality_score_cell r =
      match cellNum r "battery_level" with
      | none => some (.str "FAIL")
      | some q =>
          if decide (50 ≤ q) && (cell r "temperature_c").isSome
              && (cell r "humidity_pct").isSome && (cell r "aqi").isSome
          then some (.str "PASS")
          else if decide (20 ≤ q) then some (.str "WARN")
          else some (.str "FAIL") := by
  unfold quality_score_cell colGeNum colIsNotNull
  cases hc : cellNum r "battery_level" with
  | none =>
      simp only [hc, Option.map_none', condTrue_kAnd, condTrue_none, condTrue_some,
        Bool.false_and]
      rfl
  | some q =>
      simp only [hc, Option.map_some', condTrue_kAnd, condTrue_some]

/-- C4: the quality cascade classifies a record PASS iff
`battery_level >= 50` and `temperature_c`, `humidity_pct`, `aqi` are all
non-null; otherwise WARN iff `battery_level >= 20`; otherwise FAIL; a
null `battery_level` fails both threshold tests and yields FAIL, never an
error. -/
theorem claim_C4_quality (r : Record)
    (hb : cell r "battery_level" = none
        ∨ ∃ q, cell r "battery_level" = some (.num q)) :
    (quality_score_cell r = some (.str "PASS")
        ↔ (∃ q, cell r "battery_level" = some (.num q) ∧ 50 ≤ q)
            ∧ (cell r "temperature_c").isSome = true
            ∧ (cell r "humidity_pct").isSome = true
            ∧ (cell r "aqi").isSome = true)
      ∧ (quality_score_cell r ≠ some (.str "PASS")
          → (quality_score_cell r = some (.str "WARN")
              ↔ ∃ q, cell r "battery_level" = some (.num q) ∧ 20 ≤ q))
      ∧ (quality_score_cell r ≠ some (.str "PASS")
          → quality_score_cell r ≠ some (.str "WARN")
          → quality_score_cell r = some (.str "FAIL"))
      ∧ (cell r "battery_level" = none → quality_score_cell r = some (.str "FAIL")) := by
  rw [quality_score_cell_char r]
  rcases hb with hb | ⟨q, hb⟩
  · have hcn : cellNum r "battery_level" = none := by
      simp [cellNum, hb]
    rw [hcn]
    dsimp only
    refine ⟨?_, ?_, ?_, fun _ => rfl⟩
    · constructor
      · intro hcontr
        simp at hcontr
      · rintro ⟨⟨q2, hq2, _⟩, _, _, _⟩
        rw [hb] at hq2
        cases hq2
    · intro _
      constructor
      · intro hcontr
        simp at hcontr
      · rintro ⟨q2, hq2, _⟩
        rw [hb] at hq2
        cases hq2
    · intro _ _
      rfl
  · have hcq : cellNum r "battery_level" = some q := by
      simp [cellNum, hb, castToNum]
    rw [hcq]
    dsimp only
    have hval : ∀ q2 : ℚ, cell r "battery_level" = some (.num q2) → q2 = q := by
      intro q2 hq2
      rw [hb] at hq2
      injection hq2 with hq2
      injection hq2 with hq2
      exact hq2.symm
    split_ifs with h1 h2
    · rw [Bool.and_eq_true, Bool.and_eq_true, Bool.and_eq_true] at h1
      rcases h1 with ⟨⟨⟨h50, ht⟩, hh⟩, ha⟩
      rw [decide_eq_true_eq] at h50
      refine ⟨?_, ?_, ?_, ?_⟩
      · exact ⟨fun _ => ⟨⟨q, hb, h50⟩, ht, hh, ha⟩, fun _ => rfl⟩
      · intro hne
        exact absurd rfl hne
      · intro hne _
        exact absurd rfl hne
      · intro hcontr
        simp [hb] at hcontr
    · refine ⟨?_, ?_, ?_, ?_⟩
      · constructor
        · intro hcontr
          simp at hcontr
        · rintro ⟨⟨q2, hq2, h50⟩, ht, hh, ha⟩
          have := hval q2 hq2
          subst this
          exact absurd (by simp [h50, ht, hh, ha]) h1
      · intro _
        rw [decide_eq_true_eq] at h2
        exact ⟨fun _ => ⟨q, hb, h2⟩, fun _ => rfl⟩
      · intro _ hne
        exact absurd rfl hne
      · intro hcontr
        simp [hb] at hcontr
    · refine ⟨?_, ?_, ?_, ?_⟩
      · constructor
        · intro hcontr
          simp at hcontr
        · rintro ⟨⟨q2, hq2, h50⟩, ht, hh, ha⟩
          have := hval q2 hq2
          subst this
          exact absurd (by simp [h50, ht, hh, ha]) h1
      · intro _
        constructor
        · intro hcontr
          simp at hcontr
        · rintro ⟨q2, hq2, h20⟩
          have := hval q2 hq2
          subst this
          rw [decide_eq_true_eq] at h2
          exact absurd h20 h2
      · intro _ _
        rfl
      · intro hcontr
        simp [hb] at hcontr

/-- Witness for C4 at the spec examples: battery 60 with all fields
present is PASS; a null battery is FAIL. -/
theorem claim_C4_quality_witness :
    quality_score_cell sensorPass = some (.str "PASS")
      ∧ quality_score_cell sensorNullBattery = some (.str "FAIL") :=
  ⟨(claim_C4_quality sensorPass (Or.inr ⟨60, rfl⟩)).1.mpr
      ⟨⟨60, rfl, by norm_num⟩, rfl, rfl, rfl⟩,
   (claim_C4_quality sensorNullBattery (Or.inl rfl)).2.2.2 rfl⟩

/-- C7: an empty raw dataset makes the variant warn and skip (no write,
no exception), and a failed read is absorbed locally as an early return;
in either case `main` still runs the other dataset variant, whose outcome
is exactly its standalone behaviour. -/
theorem claim_C7_failure_isolation :
    (∀ e iotRead, main_run (.error e) iotRead
        = (transform_iot_sensors iotRead).map
            (fun i => ((["Failed to read raw weather data: " ++ e], .readError), i)))
      ∧ (∀ iotRead, main_run (.ok []) iotRead
          = (transform_iot_sensors iotRead).map
              (fun i => ((["No raw weather data found"], .emptySkip), i)))
      ∧ (∀ wRead e, main_run wRead (.error e)
          = (transform_weather wRead).map
              (fun w => (w, (["Failed to read raw IoT sensor data: " ++ e], .readError))))
      ∧ (∀ wRead, main_run wRead (.ok [])
          = (transform_weather wRead).map
              (fun w => (w, (["No raw IoT sensor data found"], .emptySkip)))) := by
  refine ⟨?_, ?_, ?_, ?_⟩
  · intro e iotRead
    cases h : transform_iot_sensors iotRead <;>
      simp [main_run, transform_weather, h, Except.map, Except.bind, bind]
  · intro iotRead
    cases h : transform_iot_sensors iotRead <;>
      simp [main_run, transform_weather, h, Except.map, Except.bind, bind]
  · intro wRead e
    cases h : transform_weather wRead <;>
      simp [main_run, transform_iot_sensors, h, Except.map, Except.bind, bind]
  · intro wRead
    cases h : transform_weather wRead <;>
      simp [main_run, transform_iot_sensors, h, Except.map, Except.bind, bind]

theorem expect_not_null_ok (ds : Dataset) (c : String) (h : inSchema ds c = true) :
    ∃ res, expect_column_values_to_not_be_null ds c = .ok res := by
  unfold expect_column_values_to_not_be_null
  rw [if_pos h]
  exact ⟨_, rfl⟩

theorem expect_between_ok (ds : Dataset) (c : String) (mn mx : ℚ)
    (h : inSchema ds c = true) :
    ∃ res, expect_column_values_to_be_between ds c mn mx = .ok res := by
  unfold expect_column_values_to_be_between
  rw [if_pos h]
  exact ⟨_, rfl⟩

theorem runRules_ok (ds : Dataset) (rules : List Rule)
    (h : ∀ rule ∈ rules, ∃ res, runRule ds rule = .ok res) :
    ∃ results, runRules ds rules = .ok results := by
  induction rules with
  | nil => exact ⟨[], rfl⟩
  | cons rule rest ih =>
      rcases h rule (List.mem_cons_self _ _) with ⟨res, hres⟩
      rcases ih (fun r hr => h r (List.mem_cons_of_mem _ hr)) with ⟨results, hresults⟩
      exact ⟨res :: results, by simp [runRules, hres, hresults, bind, Except.bind]⟩

theorem validate_weather_ok (ds : Dataset)
    (hc : inSchema ds "city" = true) (hts : inSchema ds "timestamp" = true)
    (htc : inSchema ds "temperature_c" = true)
    (hh : inSchema ds "humidity_pct" = true) :
    ∃ rep, validate_weather ds = .ok rep := by
  have h : ∀ rule ∈ weather_rules, ∃ res, runRule ds rule = .ok res := by
    intro rule hrule
    simp [weather_rules] at hrule
    rcases hrule with rfl | rfl | rfl | rfl | rfl | rfl
    · exact expect_not_null_ok ds "city" hc
    · exact expect_not_null_ok ds "timestamp" hts
    · exact expect_not_null_ok ds "temperature_c" htc
    · exact expect_between_ok ds "temperature_c" (-90) 60 htc
    · exact expect_between_ok ds "humidity_pct" 0 100 hh
    · exact ⟨_, rfl⟩
  rcases runRules_ok ds weather_rules h with ⟨results, hres⟩
  exact ⟨validate "raw_weather" results,
    by simp [validate_weather, buildReport, hres, Except.map]⟩

theorem validate_iot_ok (ds : Dataset)
    (hsid : inSchema ds "sensor_id" = true) (hc : inSchema ds "city" = true)
    (hts : inSchema ds "timestamp" = true) (htc : inSchema ds "temperature_c" = true)
    (hh : inSchema ds "humidity_pct" = true) (haqi : inSchema ds "aqi" = true)
    (hbat : inSchema ds "battery_level" = true) :
    ∃ rep, validate_iot ds = .ok rep := by
  have h : ∀ rule ∈ iot_rules, ∃ res, runRule ds rule = .ok res := by
    intro rule hrule
    simp [iot_rules] at hrule
    rcases hrule with rfl | rfl | rfl | rfl | rfl | rfl | rfl | rfl | rfl
    · exact expect_not_null_ok ds "sensor_id" hsid
    · exact expect_not_null_ok ds "city" hc
    · exact expect_not_null_ok ds "timestamp" hts
    · exact expect_not_null_ok ds "temperature_c" htc
    · exact expect_between_ok ds "temperature_c" (-50) 60 htc
    · exact expect_between_ok ds "humidity_pct" 0 100 hh
    · exact expect_between_ok ds "aqi" 0 500 haqi
    · exact expect_between_ok ds "battery_level" 0 100 hbat
    · exact ⟨_, rfl⟩
  rcases runRules_ok ds iot_rules h with ⟨results, hres⟩
  exact ⟨validate "raw_iot_sensors" results,
    by simp [validate_iot, buildReport, hres, Except.map]⟩

theorem weather_transform_eq (ds : Dataset)
    (htc : inSchema ds "temperature_c" = true)
    (hts : inSchema ds "timestamp" = true) :
    weather_transform ds = .ok (ds.map weather_record) := by
  unfold weather_transform
  rw [if_pos htc]
  have hts1 : inSchema (ds.map (fun r => setCol r "temperature_f" (weatherTempF r)))
      "timestamp" = true := by
    rcases List.any_eq_true.mp hts with ⟨r, hr, hf⟩
    refine List.any_eq_true.mpr ⟨setCol r "temperature_f" (weatherTempF r),
      List.mem_map_of_mem _ hr, ?_⟩
    rw [hasField_setCol_ne _ _ _ _ (by decide)]
    exact hf
  rw [if_pos hts1, List.map_map]
  rfl

theorem iot_record_eq (r : Record) (hv : Option Val)
    (h : pseudonymize_udf_cell (cell r "sensor_id") = .ok hv) :
    iot_record r = .ok (iot_record_fn r hv) := by
  simp [iot_record, h, bind, Except.bind, iot_record_fn]

theorem pseudonymize_udf_cell_ok (v : Option Val)
    (h : v = none ∨ ∃ s, v = some (.str s)) :
    ∃ hv, pseudonymize_udf_cell v = .ok hv
      ∧ (v = none → hv = none)
      ∧ (∀ s, v = some (.str s) → hv = (pseudonymize_column (some s)).map Val.str) := by
  rcases h with rfl | ⟨s, rfl⟩
  · exact ⟨none, rfl, fun _ => rfl, by simp⟩
  · refine ⟨(pseudonymize_column (some s)).map Val.str, rfl, by simp, ?_⟩
    intro s2 hs2
    injection hs2 with hs2
    injection hs2 with hs2
    rw [hs2]

theorem mapExcept_mem (f : Record → Except String Record) (l : List Record)
    (h : ∀ r ∈ l, ∃ r2, f r = .ok r2) :
    ∃ l2, mapExcept f l = .ok l2
      ∧ ∀ r ∈ l, ∀ r2, f r = .ok r2 → r2 ∈ l2 := by
  induction l with
  | nil => exact ⟨[], rfl, by simp⟩
  | cons a rest ih =>
      rcases h a (List.mem_cons_self _ _) with ⟨b, hb⟩
      rcases ih (fun r hr => h r (List.mem_cons_of_mem _ hr)) with ⟨l2, hl2, hmem⟩
      refine ⟨b :: l2, by simp [mapExcept, hb, hl2, bind, Except.bind], ?_⟩
      intro r hr r2 hr2
      rcases List.mem_cons.mp hr with rfl | hr
      · rw [hb] at hr2
        injection hr2 with e
        exact e ▸ List.mem_cons_self _ _
      · exact List.mem_cons_of_mem _ (hmem r hr r2 hr2)

theorem iot_transform_run (ds : Dataset)
    (hsid : inSchema ds "sensor_id" = true) (hbat : inSchema ds "battery_level" = true)
    (htc : inSchema ds "temperature_c" = true) (hh : inSchema ds "humidity_pct" = true)
    (haqi : inSchema ds "aqi" = true) (hts : inSchema ds "timestamp" = true) :
    iot_transform ds = mapExcept iot_record ds := by
  unfold iot_transform
  simp [hsid, hbat, htc, hh, haqi, hts]

theorem iot_record_ok (r : Record)
    (hr : cell r "sensor_id" = none ∨ ∃ s, cell r "sensor_id" = some (.str s)) :
    ∃ r2, iot_record r = .ok r2 := by
  rcases pseudonymize_udf_cell_ok (cell r "sensor_id") hr with ⟨hv, hok, _, _⟩
  exact ⟨iot_record_fn r hv, iot_record_eq r hv hok⟩

theorem iot_transform_ok (ds : Dataset)
    (hsid : inSchema ds "sensor_id" = true) (hbat : inSchema ds "battery_level" = true)
    (htc : inSchema ds "temperature_c" = true) (hh : inSchema ds "humidity_pct" = true)
    (haqi : inSchema ds "aqi" = true) (hts : inSchema ds "timestamp" = true)
    (hall : ∀ r ∈ ds, cell r "sensor_id" = none
        ∨ ∃ s, cell r "sensor_id" = some (.str s)) :
    ∃ out, iot_transform ds = .ok out
      ∧ ∀ r ∈ ds, ∀ r2, iot_record r = .ok r2 → r2 ∈ out := by
  rcases mapExcept_mem iot_record ds (fun r hr => iot_record_ok r (hall r hr))
    with ⟨out, hout, hmem⟩
  exact ⟨out, by rw [iot_transform_run ds hsid hbat htc hh haqi hts]; exact hout, hmem⟩

/-- C1 counterexample: a readable, non-empty raw weather dataset whose
schema lacks the `city` column makes the validation stage raise an
`AnalysisException` that propagates, so the transform and write stages do
not execute — refuting the claim that they run for every readable
non-empty raw dataset. -/
theorem claim_C1_counterexample :
    (noCityDs ≠ [] ∧ (.ok noCityDs : Except String Dataset) = .ok noCityDs)
      ∧ transform_weather (.ok noCityDs) = .error (analysisError "city")
      ∧ ¬ ∃ logs curated, transform_weather (.ok noCityDs)
            = .ok (logs, .wrote curated) := by
  have h : transform_weather (.ok noCityDs) = .error (analysisError "city") := by rfl
  refine ⟨⟨by decide, rfl⟩, h, ?_⟩
  rintro ⟨logs, curated, hcontr⟩
  rw [h] at hcontr
  cases hcontr

/-- C1 amended: the post-validation stage of either variant produces
curated output that does not depend on the `ValidationReport` it is
handed (only the emitted logs mention it), and for every readable,
non-empty raw dataset whose schema contains the columns the fixed rule
set and transform reference (with, for sensor readings, string-or-null
`sensor_id` values), the transform and write stages execute regardless of
the validation outcome. -/
theorem claim_C1_amended (raw : Dataset) (rep1 rep2 : ValidationReport) :
    (weather_post_validation raw rep1).map Prod.snd
        = (weather_post_validation raw rep2).map Prod.snd
      ∧ (iot_post_validation raw rep1).map Prod.snd
          = (iot_post_validation raw rep2).map Prod.snd
      ∧ (raw ≠ [] → inSchema raw "city" = true → inSchema raw "timestamp" = true
          → inSchema raw "temperature_c" = true → inSchema raw "humidity_pct" = true
          → ∃ logs, transform_weather (.ok raw)
              = .ok (logs, .wrote (raw.map weather_record)))
      ∧ (raw ≠ []
          → inSchema raw "sensor_id" = true → inSchema raw "city" = true
          → inSchema raw "timestamp" = true → inSchema raw "temperature_c" = true
          → inSchema raw "humidity_pct" = true → inSchema raw "aqi" = true
          → inSchema raw "battery_level" = true
          → (∀ r ∈ raw, cell r "sensor_id" = none
              ∨ ∃ s, cell r "sensor_id" = some (.str s))
          → ∃ logs curated, transform_iot_sensors (.ok raw)
              = .ok (logs, .wrote curated)) := by
  refine ⟨?_, ?_, ?_, ?_⟩
  · cases h : weather_transform raw <;>
      simp [weather_post_validation, h, Except.map, Except.bind, bind]
  · cases h : iot_transform raw <;>
      simp [iot_post_validation, h, Except.map, Except.bind, bind]
  · intro hne hcity hts htc hh
    have hempty : raw.isEmpty = false := by
      cases raw
      · exact absurd rfl hne
      · rfl
    rcases validate_weather_ok raw hcity hts htc hh with ⟨rep, hrep⟩
    refine ⟨weather_validation_logs rep ++ ["Weather transform complete"], ?_⟩
    simp [transform_weather, hempty, hrep, bind, Except.bind,
      weather_post_validation, weather_transform_eq raw htc hts]
  · intro hne hsid hcity hts htc hh haqi hbat hall
    have hempty : raw.isEmpty = false := by
      cases raw
      · exact absurd rfl hne
      · rfl
    rcases validate_iot_ok raw hsid hcity hts htc hh haqi hbat with ⟨rep, hrep⟩
    rcases iot_transform_ok raw hsid hbat htc hh haqi hts hall with ⟨out, hout, _⟩
    refine ⟨iot_validation_logs rep ++ ["IoT sensor transform complete"], out, ?_⟩
    simp [transform_iot_sensors, hempty, hrep, bind, Except.bind,
      iot_post_validation, hout]

/-- Witness for the amended C1: both variants write curated output on a
concrete fully-populated record. -/
theorem claim_C1_amended_witness :
    (∃ logs, transform_weather (.ok [sensorHot])
        = .ok (logs, .wrote ([sensorHot].map weather_record)))
      ∧ (∃ logs curated, transform_iot_sensors (.ok [sensorHot])
          = .ok (logs, .wrote curated)) :=
  ⟨(claim_C1_amended [sensorHot] (validate "x" []) (validate "x" [])).2.2.1
      (by decide) (by decide) (by decide) (by decide) (by decide),
   (claim_C1_amended [sensorHot] (validate "x" []) (validate "x" [])).2.2.2
      (by decide) (by decide) (by decide) (by decide) (by decide) (by decide)
      (by decide) (by decide)
      (by
        intro r hr
        simp only [List.mem_singleton] at hr
        subst hr
        exact Or.inr ⟨"s1", rfl⟩)⟩

/-- C8: the weather transform gives every record a `temperature_f` of
`round(temperature_c * 9/5 + 32, 2)` and a `date` equal to the first 10
characters of its `timestamp`; on the Austin record the curated output
has `temperature_f = 68` and `date = "2024-01-01"`, and validation
reports 0 failures. -/
theorem claim_C8_weather_derived :
    (∀ (ds : Dataset) (r : Record) (tc : ℚ) (ts : String), r ∈ ds
      → cell r "temperature_c" = some (.num tc)
      → cell r "timestamp" = some (.str ts)
      → ∃ curated, weather_transform ds = .ok curated
          ∧ weather_record r ∈ curated
          ∧ cell (weather_record r) "temperature_f"
              = some (.num (round2 (tc * 9 / 5 + 32)))
          ∧ cell (weather_record r) "date" = some (.str (ts.take 10)))
      ∧ (validate_weather [austin]).map (fun rep => rep.expectations_failed) = .ok 0
      ∧ (∃ logs, transform_weather (.ok [austin])
          = .ok (logs, .wrote [weather_record austin]))
      ∧ cell (weather_record austin) "temperature_f" = some (.num 68)
      ∧ cell (weather_record austin) "date" = some (.str "2024-01-01") := by
  have h68 : round2 (20 * 9 / 5 + 32) = 68 := by
    rw [round2, if_pos (by norm_num)]
    rw [show ((20 : ℚ) * 9 / 5 + 32) * 100 + 1 / 2 = 6800 + 1 / 2 by norm_num]
    rw [show ⌊(6800 : ℚ) + 1 / 2⌋ = (6800 : ℤ) from by
      rw [Int.floor_eq_iff]
      constructor <;> norm_num]
    norm_num
  have hcell : cell (weather_record austin) "temperature_f"
      = some (.num (round2 (20 * 9 / 5 + 32))) := by rfl
  refine ⟨?_, by rfl, ⟨_, by rfl⟩, by rw [hcell, h68], by rfl⟩
  intro ds r tc ts hmem htc hts
  have htc2 : inSchema ds "temperature_c" = true :=
    inSchema_of_mem ds r _ hmem (hasField_of_cell_some r _ _ htc)
  have hts2 : inSchema ds "timestamp" = true :=
    inSchema_of_mem ds r _ hmem (hasField_of_cell_some r _ _ hts)
  refine ⟨ds.map weather_record, weather_transform_eq ds htc2 hts2,
    List.mem_map_of_mem _ hmem, ?_, ?_⟩
  · show cell (setCol (setCol r "temperature_f" (weatherTempF r)) "date"
        (dateCell (setCol r "temperature_f" (weatherTempF r)))) "temperature_f" = _
    rw [cell_setCol_ne _ _ _ _ (by decide), cell_setCol_self]
    unfold weatherTempF
    rw [(cellNum_eq_some r "temperature_c" tc).mpr htc]
    rfl
  · show cell (setCol (setCol r "temperature_f" (weatherTempF r)) "date"
        (dateCell (setCol r "temperature_f" (weatherTempF r)))) "date" = _
    rw [cell_setCol_self]
    unfold dateCell
    rw [cell_setCol_ne _ _ _ _ (by decide), hts]
    rfl

/-- Witness for C8: the per-record conjunct applied to the Austin
record. -/
theorem claim_C8_witness :
    ∃ curated, weather_transform [austin] = .ok curated
      ∧ weather_record austin ∈ curated
      ∧ cell (weather_record austin) "temperature_f"
          = some (.num (round2 (20 * 9 / 5 + 32)))
      ∧ cell (weather_record austin) "date"
          = some (.str ("2024-01-01T00:00:00Z".take 10)) :=
  claim_C8_weather_derived.1 [austin] austin 20 "2024-01-01T00:00:00Z"
    (List.mem_singleton.mpr rfl) rfl rfl

/-- C9: the sensor transform removes the `sensor_id` field entirely,
adds `sensor_id_hash` holding the pseudonym of the original `sensor_id`
(null stays null), adds `quality_score` and `date`, and leaves every
other field of the raw record present and unchanged. -/
theorem claim_C9_frame (ds : Dataset) (r : Record)
    (hmem : r ∈ ds)
    (hall : ∀ r2 ∈ ds, cell r2 "sensor_id" = none
        ∨ ∃ s, cell r2 "sensor_id" = some (.str s))
    (hsid : inSchema ds "sensor_id" = true) (hbat : inSchema ds "battery_level" = true)
    (htc : inSchema ds "temperature_c" = true) (hh : inSchema ds "humidity_pct" = true)
    (haqi : inSchema ds "aqi" = true) (hts : inSchema ds "timestamp" = true) :
    ∃ out hv, iot_transform ds = .ok out
      ∧ pseudonymize_udf_cell (cell r "sensor_id") = .ok hv
      ∧ iot_record r = .ok (iot_record_fn r hv)
      ∧ iot_record_fn r hv ∈ out
      ∧ hasField (iot_record_fn r hv) "sensor_id" = false
      ∧ cell (iot_record_fn r hv) "sensor_id_hash" = hv
      ∧ (cell r "sensor_id" = none → hv = none)
      ∧ (∀ s, cell r "sensor_id" = some (.str s)
          → hv = (pseudonymize_column (some s)).map Val.str)
      ∧ hasField (iot_record_fn r hv) "quality_score" = true
      ∧ hasField (iot_record_fn r hv) "date" = true
      ∧ (∀ c, c ≠ "sensor_id" → c ≠ "sensor_id_hash" → c ≠ "quality_score"
          → c ≠ "date"
          → hasField (iot_record_fn r hv) c = hasField r c
            ∧ cell (iot_record_fn r hv) c = cell r c) := by
  rcases pseudonymize_udf_cell_ok (cell r "sensor_id") (hall r hmem)
    with ⟨hv, hok, hnone, hstr⟩
  rcases iot_transform_ok ds hsid hbat htc hh haqi hts hall with ⟨out, hout, hmemout⟩
  have hrec := iot_record_eq r hv hok
  refine ⟨out, hv, hout, hok, hrec, hmemout r hmem _ hrec, ?_, ?_, hnone, hstr,
    ?_, ?_, ?_⟩
  · simp only [iot_record_fn]
    rw [hasField_setCol_ne _ _ _ _ (by decide), hasField_setCol_ne _ _ _ _ (by decide),
      hasField_dropCol_self]
  · simp only [iot_record_fn]
    rw [cell_setCol_ne _ _ _ _ (by decide), cell_setCol_ne _ _ _ _ (by decide),
      cell_dropCol_ne _ _ _ (by decide), cell_setCol_self]
  · simp only [iot_record_fn]
    rw [hasField_setCol_ne _ _ _ _ (by decide), hasField_setCol_self]
  · simp only [iot_record_fn]
    rw [hasField_setCol_self]
  · intro c hc1 hc2 hc3 hc4
    simp only [iot_record_fn]
    constructor
    · rw [hasField_setCol_ne _ _ _ _ hc4, hasField_setCol_ne _ _ _ _ hc3,
        hasField_dropCol_ne _ _ _ hc1, hasField_setCol_ne _ _ _ _ hc2]
    · rw [cell_setCol_ne _ _ _ _ hc4, cell_setCol_ne _ _ _ _ hc3,
        cell_dropCol_ne _ _ _ hc1, cell_setCol_ne _ _ _ _ hc2]

/-- Witness for C9 on a concrete sensor record. -/
theorem claim_C9_witness :
    ∃ out hv, iot_transform [sensorHot] = .ok out
      ∧ pseudonymize_udf_cell (cell sensorHot "sensor_id") = .ok hv
      ∧ iot_record sensorHot = .ok (iot_record_fn sensorHot hv)
      ∧ iot_record_fn sensorHot hv ∈ out
      ∧ hasField (iot_record_fn sensorHot hv) "sensor_id" = false
      ∧ cell (iot_record_fn sensorHot hv) "sensor_id_hash" = hv
      ∧ (cell sensorHot "sensor_id" = none → hv = none)
      ∧ (∀ s, cell sensorHot "sensor_id" = some (.str s)
          → hv = (pseudonymize_column (some s)).map Val.str)
      ∧ hasField (iot_record_fn sensorHot hv) "quality_score" = true
      ∧ hasField (iot_record_fn sensorHot hv) "date" = true
      ∧ (∀ c, c ≠ "sensor_id" → c ≠ "sensor_id_hash" → c ≠ "quality_score"
          → c ≠ "date"
          → hasField (iot_record_fn sensorHot hv) c = hasField sensorHot c
            ∧ cell (iot_record_fn sensorHot hv) c = cell sensorHot c) :=
  claim_C9_frame [sensorHot] sensorHot (List.mem_singleton.mpr rfl)
    (by
      intro r hr
      simp only [List.mem_singleton] at hr
      subst hr
      exact Or.inr ⟨"s1", rfl⟩)
    (by decide) (by decide) (by decide) (by decide) (by decide) (by decide)
